import Mathlib

/-!
Shallow embedding of the SEM cropper-and-scaler editor
(`src/sem-cropper-&-scaler/components/ImageEditor.tsx`, with the analysis
service in `src/unnamed/part_000` and the shared types in `types.ts`).

Modelling conventions:
  * JS numbers are embedded as exact rationals (`ℚ`) where the program only
    performs field arithmetic and rounding, and as reals (`ℝ`) where a square
    root is taken (`Math.sqrt` in the calibration click handler).  The IEEE
    special values are not inhabitants of these types; where the program can
    produce a non-finite double (division by `knownDistance = 0`) the result
    is embedded as `Option`, with `none` standing for the non-finite values.
  * Crop-rectangle coordinates are embedded as integers (`ℤ`): every value
    ever stored in the crop state is the result of `Math.round` or an image
    dimension, hence an integer.
  * `parseFloat` is embedded by `parseFloatQ`, implementing the ECMAScript
    grammar fragment `[ws] [sign] digits [. digits] [exponent]` as a longest
    valid prefix parse, `none` standing for `NaN`.  The special literal
    `Infinity` is outside the rational embedding and is not modelled.
  * `Math.round x` is `⌊x + 1/2⌋` (ties toward +∞), exactly ECMAScript
    `Math.round`; `toFixed(1)` keeps the numeric value `⌊10*x + 1/2⌋ / 10`
    (ECMAScript picks the larger candidate on ties).
-/

namespace SEM

/-- ECMAScript `Math.round`: round half toward positive infinity. -/
def jsRound (q : ℚ) : ℤ := ⌊q + 1/2⌋

/-- Numeric value displayed by `x.toFixed(1)`: `x` rounded to one decimal. -/
def toFixed1 (q : ℚ) : ℚ := (jsRound (q * 10) : ℚ) / 10

/-- Numeric value of a decimal digit character. -/
def digitVal (c : Char) : ℕ := c.toNat - '0'.toNat

/-- Value of a list of decimal digit characters, most significant first. -/
def digitsToNat (ds : List Char) : ℕ := ds.foldl (fun acc c => 10 * acc + digitVal c) 0

/-- Embedding of ECMAScript `parseFloat`: skip leading whitespace, then parse
the longest prefix of the form `[+-] digits [. digits] [eE [+-] digits]`.
Returns `none` when no digit is found (`NaN`).  The `Infinity` literal is not
modelled (its value is outside `ℚ`). -/
def parseFloatQ (s : String) : Option ℚ :=
  let cs := s.toList.dropWhile fun c => c.isWhitespace
  let signAndRest : ℚ × List Char :=
    match cs with
    | '-' :: rest => (-1, rest)
    | '+' :: rest => (1, rest)
    | rest => (1, rest)
  let sign := signAndRest.1
  let cs1 := signAndRest.2
  let intDigits := cs1.takeWhile Char.isDigit
  let cs2 := cs1.dropWhile Char.isDigit
  let fracAndRest : List Char × List Char :=
    match cs2 with
    | '.' :: rest => (rest.takeWhile Char.isDigit, rest.dropWhile Char.isDigit)
    | rest => ([], rest)
  let fracDigits := fracAndRest.1
  let cs3 := fracAndRest.2
  if intDigits.isEmpty && fracDigits.isEmpty then none
  else
    let mant : ℚ := (digitsToNat intDigits : ℚ)
      + (digitsToNat fracDigits : ℚ) / (10 : ℚ) ^ fracDigits.length
    let exp : ℤ :=
      match cs3 with
      | e :: rest =>
        if e = 'e' ∨ e = 'E' then
          let esignAndRest : ℤ × List Char :=
            match rest with
            | '-' :: r => (-1, r)
            | '+' :: r => (1, r)
            | r => (1, r)
          let eds := esignAndRest.2.takeWhile Char.isDigit
          if eds.isEmpty then 0 else esignAndRest.1 * (digitsToNat eds : ℤ)
        else 0
      | [] => 0
    some (sign * mant * (10 : ℚ) ^ exp)

/-- Auxiliary tokenizer: split a character list at whitespace runs,
accumulating the current (reversed) token. -/
def splitWsAux : List Char → List Char → List String
  | [], cur => if cur.isEmpty then [] else [String.mk cur.reverse]
  | c :: rest, cur =>
    if c.isWhitespace then
      if cur.isEmpty then splitWsAux rest []
      else String.mk cur.reverse :: splitWsAux rest []
    else splitWsAux rest (c :: cur)

/-- Embedding of `text.trim().split(/\s+/)` as used on `initialScaleText`:
the list of maximal whitespace-free tokens.  (On the all-whitespace input the
JS expression yields `[""]` and this yields `[]`; both have fewer than two
entries, so the consumer behaves identically.) -/
def jsSplitWs (s : String) : List String := splitWsAux s.toList []

/-! ### Data model (`types.ts`) -/

/-- Crop rectangle in native image pixels (`CropRect` in `types.ts`).
Every stored coordinate is an integer (image dimensions or `Math.round`
outputs), so the fields are embedded as `ℤ`. -/
structure CropRect where
  x : ℤ
  y : ℤ
  width : ℤ
  height : ℤ
  deriving DecidableEq

/-- Native image dimensions (`imageObj.width` / `imageObj.height`). -/
structure ImageDims where
  width : ℤ
  height : ℤ
  deriving DecidableEq

/-- Application mode (`AppState` in `types.ts`). -/
inductive AppState where
  | UPLOAD
  | CALIBRATE
  | EDIT
  deriving DecidableEq

/-- Scale-bar corner (`position` field of `ScaleBarSettings`). -/
inductive BarPosition where
  | bottomLeft
  | bottomRight
  | topLeft
  | topRight
  deriving DecidableEq

/-- Named crop edge for inset editing (`type` argument of `updateCropInset`). -/
inductive InsetType where
  | top
  | bottom
  | left
  | right
  deriving DecidableEq

/-! ### Crop model (`ImageEditor.tsx` lines 266-317) -/

/-- Embedding of `parseInputValue` (lines 272-277): `parseFloat` the field
text, `NaN` coerces to 0, percent input is converted through the relevant
dimension, and the result is rounded to whole pixels. -/
def parseInputValue (usePercent : Bool) (val : String) (mx : ℤ) : ℤ :=
  match parseFloatQ val with
  | none => 0
  | some num => if usePercent then jsRound (num / 100 * mx) else jsRound num

/-- The dimension against which an inset value is parsed (lines 288-292):
height for top/bottom, width for left/right. -/
def insetMax (img : ImageDims) : InsetType → ℤ
  | .top | .bottom => img.height
  | .left | .right => img.width

/-- Embedding of `updateCropInset` (lines 279-317): parse the field text
into a pixel value and move one crop edge, keeping the opposite edge fixed
for top/left and clamping the resulting size at a 10-pixel minimum for
bottom/right. -/
def updateCropInset (img : ImageDims) (usePercent : Bool) (ty : InsetType)
    (valueStr : String) (prev : CropRect) : CropRect :=
  let val : ℤ := parseInputValue usePercent valueStr (insetMax img ty)
  match ty with
  | .top =>
    let bottomEdge := prev.y + prev.height
    let newY := max 0 (min val (bottomEdge - 10))
    { prev with y := newY, height := bottomEdge - newY }
  | .bottom =>
    let newHeight := img.height - prev.y - val
    { prev with height := max 10 newHeight }
  | .left =>
    let rightEdge := prev.x + prev.width
    let newX := max 0 (min val (rightEdge - 10))
    { prev with x := newX, width := rightEdge - newX }
  | .right =>
    let newWidth := img.width - prev.x - val
    { prev with width := max 10 newWidth }

/-- One crop-inset edit event: the percent/pixel toggle state, the edited
edge, and the raw field text. -/
structure CropEdit where
  usePercent : Bool
  ty : InsetType
  value : String

/-- Sequential application of a list of crop-inset edits. -/
def applyCropEdits (img : ImageDims) (edits : List CropEdit) (c : CropRect) : CropRect :=
  edits.foldl (fun acc e => updateCropInset img e.usePercent e.ty e.value acc) c

/-- The crop-rectangle bounds from the specification: at least 10 pixels in
each direction, and contained in the image. -/
def CropInv (img : ImageDims) (c : CropRect) : Prop :=
  10 ≤ c.width ∧ 10 ≤ c.height ∧ 0 ≤ c.x ∧ 0 ≤ c.y ∧
    c.x + c.width ≤ img.width ∧ c.y + c.height ≤ img.height

instance (img : ImageDims) (c : CropRect) : Decidable (CropInv img c) := by
  unfold CropInv; infer_instance

/-- Embedding of `getDisplayValue` (lines 267-270): an inset value is shown
as a percentage of its dimension to one decimal, or rounded to whole pixels.
Only the numeric value of the displayed string is modelled. -/
def getDisplayValue (usePercent : Bool) (val mx : ℤ) : ℚ :=
  if usePercent then toFixed1 ((val : ℚ) / (mx : ℚ) * 100)
  else (jsRound (val : ℚ) : ℚ)

/-- Numeric value shown in the Bottom Inset field (line 500):
`getDisplayValue(imageObj.height - (crop.y + crop.height), imageObj.height)`. -/
def bottomInsetDisplay (img : ImageDims) (usePercent : Bool) (c : CropRect) : ℚ :=
  getDisplayValue usePercent (img.height - (c.y + c.height)) img.height

/-- Embedding of the initial crop set in the image-load effect
(lines 57-62): full width, height `suggestedCropY` when positive, else the
full image height. -/
def initialCrop (imgW imgH suggestedCropY : ℤ) : CropRect :=
  { x := 0
    y := 0
    width := imgW
    height := if suggestedCropY > 0 then suggestedCropY else imgH }

/-! ### Calibration, scale-bar rendering and image-load seeding

These components manipulate JS doubles produced by `Math.sqrt` and by
division, so they are embedded over `ℝ` (and are `noncomputable` for that
reason only). -/

/-- A point in native image pixel coordinates. -/
structure Point where
  x : ℝ
  y : ℝ

/-- Calibration state (`CalibrationData` in `types.ts`): measured pixel
distance, the real-world distance it represents, and the unit label. -/
structure CalibrationData where
  pixels : ℝ
  knownDistance : ℝ
  unit : String

/-- Scale-bar configuration (`ScaleBarSettings` in `types.ts`).  The source
field `show` is embedded as `visible` because `show` is a Lean keyword. -/
structure ScaleBarSettings where
  visible : Bool
  lengthValue : ℝ
  lengthUnit : String
  barHeight : ℝ
  fontSize : ℝ
  fontColor : String
  barColor : String
  position : BarPosition
  overlayPadding : ℝ

/-- The mutable state owned by the `ImageEditor` component (its `useState`
hooks, lines 21-48). -/
structure EditorState where
  crop : CropRect
  mode : AppState
  usePercent : Bool
  calStart : Option Point
  calEnd : Option Point
  calibration : CalibrationData
  settings : ScaleBarSettings

/-- Result of the analysis service (`SemAnalysisResult` in `types.ts`). -/
structure SemAnalysisResult where
  suggestedCropY : ℤ
  detectedScaleText : Option String

/-- Embedding of `analyzeSemImage` (`src/unnamed/part_000`): the argument is
the parsed service response, `none` standing for any failure (network error,
missing or malformed payload); the catch branch substitutes the default
`{ suggestedCropY: 0 }`. -/
def analyzeSemImage : Option SemAnalysisResult → SemAnalysisResult
  | some r => r
  | none => { suggestedCropY := 0, detectedScaleText := none }

noncomputable section

/-- Distance computed by the second calibration click (line 258):
`Math.sqrt(Math.pow(x - calStart.x, 2) + Math.pow(y - calStart.y, 2))`. -/
def euclidDist (a b : Point) : ℝ :=
  Real.sqrt ((b.x - a.x) ^ 2 + (b.y - a.y) ^ 2)

/-- Embedding of `handleCanvasClick` (lines 243-264): ignored outside
CALIBRATE mode; first click sets `start`, second sets `end` and stores the
measured distance, third replaces `start` and clears `end`. -/
def handleCanvasClick (pt : Point) (s : EditorState) : EditorState :=
  if s.mode ≠ AppState.CALIBRATE then s
  else
    match s.calStart with
    | none => { s with calStart := some pt }
    | some st =>
      match s.calEnd with
      | none =>
        { s with
          calEnd := some pt
          calibration := { s.calibration with pixels := euclidDist st pt } }
      | some _ => { s with calStart := some pt, calEnd := none }

/-- Embedding of the Reset Points button handler (line 569):
`setCalStart(null); setCalEnd(null); setCalibration(p => ({...p, pixels: 0}))`. -/
def resetPoints (s : EditorState) : EditorState :=
  { s with
    calStart := none
    calEnd := none
    calibration := { s.calibration with pixels := 0 } }

/-- The pixels-per-unit ratio `calibration.pixels / calibration.knownDistance`
(lines 140 and 339). -/
def pixelsPerUnit (c : CalibrationData) : ℝ := c.pixels / c.knownDistance

/-- The IEEE value of `pixels / knownDistance`: `none` stands for the
non-finite doubles (infinities and NaN), produced exactly when
`knownDistance = 0`. -/
def pixelsPerUnitJS (c : CalibrationData) : Option ℝ :=
  if c.knownDistance = 0 then none else some (c.pixels / c.knownDistance)

/-- Guard under which the preview pipeline draws the new scale bar
(line 139): `mode === AppState.EDIT && settings.show && calibration.pixels > 0`. -/
def scaleBarDrawnP (s : EditorState) : Prop :=
  s.mode = AppState.EDIT ∧ s.settings.visible = true ∧ 0 < s.calibration.pixels

/-- Guard under which the export pipeline draws the scale bar (line 338):
`settings.show && calibration.pixels > 0`. -/
def exportBarDrawnP (s : EditorState) : Prop :=
  s.settings.visible = true ∧ 0 < s.calibration.pixels

/-- The export button is disabled exactly when `calibration.pixels === 0`
(line 675). -/
def exportDisabled (s : EditorState) : Prop :=
  s.calibration.pixels = 0

/-- A rectangle as passed to `ctx.fillRect`. -/
structure BarRect where
  x : ℝ
  y : ℝ
  w : ℝ
  h : ℝ

/-- The `fillRect` arguments for the scale bar in the preview pipeline
(lines 139-169): anchor relative to the crop rectangle, bar drawn at the
anchor. -/
def previewBarFillRect (s : EditorState) : BarRect :=
  let pixelsPerUnit := s.calibration.pixels / s.calibration.knownDistance
  let barPixelWidth := s.settings.lengthValue * pixelsPerUnit
  let p := s.settings.overlayPadding
  let c := s.crop
  let a : ℝ × ℝ :=
    match s.settings.position with
    | .bottomRight => ((c.x : ℝ) + (c.width : ℝ) - barPixelWidth - p,
                       (c.y : ℝ) + (c.height : ℝ) - p)
    | .bottomLeft => ((c.x : ℝ) + p, (c.y : ℝ) + (c.height : ℝ) - p)
    | .topRight => ((c.x : ℝ) + (c.width : ℝ) - barPixelWidth - p,
                    (c.y : ℝ) + p + s.settings.fontSize)
    | .topLeft => ((c.x : ℝ) + p, (c.y : ℝ) + p + s.settings.fontSize)
  ⟨a.1, a.2, barPixelWidth, s.settings.barHeight⟩

/-- The `fillRect` arguments for the scale bar in the export pipeline
(lines 338-355): the reference rectangle is the output canvas, sized to the
crop, and the bar is drawn at `(x, y - barHeight)`. -/
def exportBarFillRect (s : EditorState) : BarRect :=
  let pixelsPerUnit := s.calibration.pixels / s.calibration.knownDistance
  let barPixelWidth := s.settings.lengthValue * pixelsPerUnit
  let p := s.settings.overlayPadding
  let cw : ℝ := (s.crop.width : ℝ)
  let ch : ℝ := (s.crop.height : ℝ)
  let a : ℝ × ℝ :=
    match s.settings.position with
    | .bottomRight => (cw - barPixelWidth - p, ch - p)
    | .bottomLeft => (p, ch - p)
    | .topRight => (cw - barPixelWidth - p, p + s.settings.fontSize)
    | .topLeft => (p, p + s.settings.fontSize)
  ⟨a.1, a.2 - s.settings.barHeight, barPixelWidth, s.settings.barHeight⟩

/-- The corner-anchor formulas as stated by the specification, for a
reference rectangle given by its edges.  This definition follows the
wording of the spec (section 4.4) and is compared against the two source
pipelines. -/
def specBarAnchor (pos : BarPosition) (left top right bottom : ℝ)
    (barW p fontSize : ℝ) : ℝ × ℝ :=
  match pos with
  | .bottomRight => (right - barW - p, bottom - p)
  | .bottomLeft => (left + p, bottom - p)
  | .topRight => (right - barW - p, top + p + fontSize)
  | .topLeft => (left + p, top + p + fontSize)

/-- Embedding of the `initialScaleText` parse in the image-load effect
(lines 64-75): tokenize by whitespace, require at least two tokens and a
`parseFloat`-parsable first token, then seed `knownDistance`, `unit`, the
new-bar `lengthUnit` and `lengthValue = val / 2`. -/
def seedFromScaleText (text : String) (s : EditorState) : EditorState :=
  match jsSplitWs text with
  | p0 :: p1 :: _ =>
    match parseFloatQ p0 with
    | some val =>
      { s with
        calibration := { s.calibration with knownDistance := (val : ℝ), unit := p1 }
        settings := { s.settings with lengthUnit := p1, lengthValue := (val : ℝ) / 2 } }
    | none => s
  | _ => s

/-- Embedding of the whole image-load effect (lines 51-77): set the initial
crop from the suggested crop line, then seed calibration defaults from the
detected scale text when present.  The JS guard `if (initialScaleText)` is
falsy on the empty string, hence the extra test. -/
def onImageLoad (imgW imgH suggestedCropY : ℤ) (initialScaleText : Option String)
    (s : EditorState) : EditorState :=
  let s1 := { s with crop := initialCrop imgW imgH suggestedCropY }
  match initialScaleText with
  | some t => if t = "" then s1 else seedFromScaleText t s1
  | none => s1

/-- The initial editor state (the `useState` initializers, lines 21-48). -/
def initialEditorState : EditorState :=
  { crop := ⟨0, 0, 0, 0⟩
    mode := AppState.CALIBRATE
    usePercent := false
    calStart := none
    calEnd := none
    calibration := { pixels := 0, knownDistance := 10, unit := "µm" }
    settings :=
      { visible := true
        lengthValue := 5
        lengthUnit := "µm"
        barHeight := 8
        fontSize := 24
        fontColor := "#ffffff"
        barColor := "#ffffff"
        position := .bottomRight
        overlayPadding := 40 } }

end

/-! ### Theorems -/

/-- C9: the explicit calibration reset clears both reference points and
zeroes `pixelDistance`, leaving `knownDistance`, `unit`, the crop rectangle,
the scale-bar settings and the mode unchanged. -/
theorem C9_reset_points (s : EditorState) :
    (resetPoints s).calStart = none ∧ (resetPoints s).calEnd = none ∧
    (resetPoints s).calibration.pixels = 0 ∧
    (resetPoints s).calibration.knownDistance = s.calibration.knownDistance ∧
    (resetPoints s).calibration.unit = s.calibration.unit ∧
    (resetPoints s).crop = s.crop ∧ (resetPoints s).settings = s.settings ∧
    (resetPoints s).mode = s.mode := by
  simp [resetPoints]

/-- C10: on image load the crop is full-width at the origin, its height is
`suggestedCropY` whenever that is positive, with no clamping: a suggestion
larger than the image height puts the crop bottom outside the image, and a
positive suggestion below 10 yields a crop thinner than the 10-pixel
minimum. -/
theorem C10_initial_crop (w h cy : ℤ) (hh : 0 < h) :
    (initialCrop w h cy).x = 0 ∧ (initialCrop w h cy).y = 0 ∧
    (initialCrop w h cy).width = w ∧
    (0 < cy → (initialCrop w h cy).height = cy) ∧
    (h < cy → h < (initialCrop w h cy).y + (initialCrop w h cy).height) ∧
    (0 < cy → cy < 10 → (initialCrop w h cy).height < 10) := by
  refine ⟨rfl, rfl, rfl, ?_, ?_, ?_⟩
  · intro hc; simp [initialCrop, hc]
  · intro hlt
    have hc : 0 < cy := lt_trans hh hlt
    simp [initialCrop, hc]
    omega
  · intro hc hlt; simp [initialCrop, hc]; omega

/-- Witness for C10 at concrete inputs: suggestion 150 on a 100-pixel-high
image escapes the image, suggestion 5 produces a sub-minimal height. -/
theorem C10_initial_crop_witness :
    100 < (initialCrop 100 100 150).y + (initialCrop 100 100 150).height ∧
    (initialCrop 100 100 5).height < 10 :=
  ⟨(C10_initial_crop 100 100 150 (by norm_num)).2.2.2.2.1 (by norm_num),
   (C10_initial_crop 100 100 5 (by norm_num)).2.2.2.2.2 (by norm_num) (by norm_num)⟩

/-- C6: in both pipelines the bar anchor follows the corner formulas of the
specification — the reference rectangle being the crop rectangle in the
preview and the origin-based output rectangle in the export — and the filled
bar rectangle sits at the anchor in the preview but at
`(x, y - barThicknessPx)` in the export. -/
theorem C6_bar_anchor_conventions (s : EditorState) :
    previewBarFillRect s =
      ⟨(specBarAnchor s.settings.position (s.crop.x : ℝ) (s.crop.y : ℝ)
          ((s.crop.x : ℝ) + (s.crop.width : ℝ)) ((s.crop.y : ℝ) + (s.crop.height : ℝ))
          (s.settings.lengthValue * (s.calibration.pixels / s.calibration.knownDistance))
          s.settings.overlayPadding s.settings.fontSize).1,
        (specBarAnchor s.settings.position (s.crop.x : ℝ) (s.crop.y : ℝ)
          ((s.crop.x : ℝ) + (s.crop.width : ℝ)) ((s.crop.y : ℝ) + (s.crop.height : ℝ))
          (s.settings.lengthValue * (s.calibration.pixels / s.calibration.knownDistance))
          s.settings.overlayPadding s.settings.fontSize).2,
        s.settings.lengthValue * (s.calibration.pixels / s.calibration.knownDistance),
        s.settings.barHeight⟩ ∧
    exportBarFillRect s =
      ⟨(specBarAnchor s.settings.position 0 0 (s.crop.width : ℝ) (s.crop.height : ℝ)
          (s.settings.lengthValue * (s.calibration.pixels / s.calibration.knownDistance))
          s.settings.overlayPadding s.settings.fontSize).1,
        (specBarAnchor s.settings.position 0 0 (s.crop.width : ℝ) (s.crop.height : ℝ)
          (s.settings.lengthValue * (s.calibration.pixels / s.calibration.knownDistance))
          s.settings.overlayPadding s.settings.fontSize).2 - s.settings.barHeight,
        s.settings.lengthValue * (s.calibration.pixels / s.calibration.knownDistance),
        s.settings.barHeight⟩ := by
  cases hp : s.settings.position <;>
    simp [previewBarFillRect, exportBarFillRect, specBarAnchor, hp]

/-- C5: whenever the calibration ratio is positive, the bar width computed
by both the preview and the export pipeline is
`lengthValue * pixelsPerUnit`. -/
theorem C5_bar_width (s : EditorState) (h : 0 < pixelsPerUnit s.calibration) :
    (previewBarFillRect s).w = s.settings.lengthValue * pixelsPerUnit s.calibration ∧
    (exportBarFillRect s).w = s.settings.lengthValue * pixelsPerUnit s.calibration := by
  cases hp : s.settings.position <;>
    simp [previewBarFillRect, exportBarFillRect, pixelsPerUnit, hp]

/-- Witness for C5: `pixelDistance = 50`, `knownDistance = 10` and the
initial `lengthValue = 5` give a bar exactly 25 pixels wide in both
pipelines. -/
theorem C5_bar_width_witness :
    (previewBarFillRect
        { initialEditorState with calibration := ⟨50, 10, "µm"⟩ }).w = 25 ∧
    (exportBarFillRect
        { initialEditorState with calibration := ⟨50, 10, "µm"⟩ }).w = 25 := by
  have h0 : 0 < pixelsPerUnit (⟨50, 10, "µm"⟩ : CalibrationData) := by
    rw [pixelsPerUnit]; norm_num
  have h := C5_bar_width { initialEditorState with calibration := ⟨50, 10, "µm"⟩ } h0
  rw [h.1, h.2]
  constructor <;>
    · show (5 : ℝ) * pixelsPerUnit (⟨50, 10, "µm"⟩ : CalibrationData) = 25
      rw [pixelsPerUnit]; norm_num

/-- C7: in CALIBRATE mode with `start` set and `end` unset, a click at `pt`
sets `end := pt` and stores the Euclidean distance from `start` to `pt` as
the measured pixel distance. -/
theorem C7_second_click (s : EditorState) (st pt : Point)
    (hm : s.mode = AppState.CALIBRATE) (h1 : s.calStart = some st)
    (h2 : s.calEnd = none) :
    (handleCanvasClick pt s).calibration.pixels = euclidDist st pt ∧
    (handleCanvasClick pt s).calEnd = some pt ∧
    (handleCanvasClick pt s).calStart = some st := by
  simp [handleCanvasClick, hm, h1, h2]

/-- Witness for C7: clicks at `(0,0)` then `(30,40)` measure exactly 50
pixels (the 3-4-5 triangle). -/
theorem C7_second_click_witness :
    (handleCanvasClick ⟨30, 40⟩
        { initialEditorState with calStart := some ⟨0, 0⟩ }).calibration.pixels = 50 := by
  have h := C7_second_click { initialEditorState with calStart := some ⟨0, 0⟩ }
    ⟨0, 0⟩ ⟨30, 40⟩ rfl rfl rfl
  rw [h.1]
  show Real.sqrt (((30 : ℝ) - 0) ^ 2 + ((40 : ℝ) - 0) ^ 2) = 50
  rw [show ((30 : ℝ) - 0) ^ 2 + ((40 : ℝ) - 0) ^ 2 = 50 ^ 2 by norm_num]
  exact Real.sqrt_sq (by norm_num)

/-- C2 (amended): from a fresh CALIBRATE session, clicks A, B, C leave
`start = C` and `end` unset and keep `knownDistance` and `unit`, but the
third click does not reset the measured distance: `pixelDistance` remains
the distance from A to B instead of returning to 0. -/
theorem C2_third_click_restart (s : EditorState) (A B C : Point)
    (hm : s.mode = AppState.CALIBRATE) (h1 : s.calStart = none)
    (h2 : s.calEnd = none) :
    (handleCanvasClick C (handleCanvasClick B (handleCanvasClick A s))).calStart = some C ∧
    (handleCanvasClick C (handleCanvasClick B (handleCanvasClick A s))).calEnd = none ∧
    (handleCanvasClick C (handleCanvasClick B (handleCanvasClick A s))).calibration.pixels
      = euclidDist A B ∧
    (handleCanvasClick C (handleCanvasClick B (handleCanvasClick A s))).calibration.knownDistance
      = s.calibration.knownDistance ∧
    (handleCanvasClick C (handleCanvasClick B (handleCanvasClick A s))).calibration.unit
      = s.calibration.unit := by
  have e1 : handleCanvasClick A s = { s with calStart := some A } := by
    simp [handleCanvasClick, hm, h1]
  rw [e1]
  have e2 : handleCanvasClick B { s with calStart := some A } =
      { s with
        calStart := some A
        calEnd := some B
        calibration := { s.calibration with pixels := euclidDist A B } } := by
    simp [handleCanvasClick, hm, h2]
  rw [e2]
  simp [handleCanvasClick, hm]

/-- Witness for C2 at a fresh concrete session. -/
theorem C2_third_click_restart_witness :
    (handleCanvasClick ⟨1, 2⟩ (handleCanvasClick ⟨30, 40⟩
        (handleCanvasClick ⟨0, 0⟩ initialEditorState))).calStart = some ⟨1, 2⟩ ∧
    (handleCanvasClick ⟨1, 2⟩ (handleCanvasClick ⟨30, 40⟩
        (handleCanvasClick ⟨0, 0⟩ initialEditorState))).calEnd = none ∧
    (handleCanvasClick ⟨1, 2⟩ (handleCanvasClick ⟨30, 40⟩
        (handleCanvasClick ⟨0, 0⟩ initialEditorState))).calibration.pixels
      = euclidDist ⟨0, 0⟩ ⟨30, 40⟩ ∧
    (handleCanvasClick ⟨1, 2⟩ (handleCanvasClick ⟨30, 40⟩
        (handleCanvasClick ⟨0, 0⟩ initialEditorState))).calibration.knownDistance
      = initialEditorState.calibration.knownDistance ∧
    (handleCanvasClick ⟨1, 2⟩ (handleCanvasClick ⟨30, 40⟩
        (handleCanvasClick ⟨0, 0⟩ initialEditorState))).calibration.unit
      = initialEditorState.calibration.unit :=
  C2_third_click_restart initialEditorState ⟨0, 0⟩ ⟨30, 40⟩ ⟨1, 2⟩ rfl rfl rfl

/-- Counterexample to C2 as stated: after clicks `(0,0)`, `(30,40)`,
`(1,2)` on a fresh session the measured distance is not 0 — the third click
leaves the stale distance of 50 in place. -/
theorem C2_third_click_cex :
    (handleCanvasClick ⟨1, 2⟩ (handleCanvasClick ⟨30, 40⟩
        (handleCanvasClick ⟨0, 0⟩ initialEditorState))).calibration.pixels ≠ 0 := by
  have e1 : handleCanvasClick ⟨0, 0⟩ initialEditorState =
      { initialEditorState with calStart := some ⟨0, 0⟩ } := by
    simp [handleCanvasClick, initialEditorState]
  rw [e1]
  have e2 : handleCanvasClick ⟨30, 40⟩ { initialEditorState with calStart := some ⟨0, 0⟩ } =
      { initialEditorState with
        calStart := some ⟨0, 0⟩
        calEnd := some ⟨30, 40⟩
        calibration := { initialEditorState.calibration with
          pixels := euclidDist ⟨0, 0⟩ ⟨30, 40⟩ } } := by
    simp [handleCanvasClick, initialEditorState]
  rw [e2]
  have e3 : ∀ t : EditorState, t.mode = AppState.CALIBRATE → t.calStart = some ⟨0, 0⟩ →
      t.calEnd = some ⟨30, 40⟩ →
      (handleCanvasClick ⟨1, 2⟩ t).calibration.pixels = t.calibration.pixels := by
    intro t hm h1 h2
    simp [handleCanvasClick, hm, h1, h2]
  rw [e3 _ rfl rfl rfl]
  show euclidDist ⟨0, 0⟩ ⟨30, 40⟩ ≠ 0
  rw [euclidDist]
  rw [show ((30 : ℝ) - 0) ^ 2 + ((40 : ℝ) - 0) ^ 2 = 50 ^ 2 by norm_num]
  rw [Real.sqrt_sq (by norm_num : (0 : ℝ) ≤ 50)]
  norm_num

/-- C3 (amended): the scale-bar guard and the export-disable guard test only
`pixelDistance`: whenever `pixelDistance = 0` the preview bar is suppressed
and export is disabled.  (A non-finite ratio caused by `knownDistance = 0`
alone does not suppress them — see the counterexample.) -/
theorem C3_guard_zero_distance (s : EditorState) (h : s.calibration.pixels = 0) :
    ¬ scaleBarDrawnP s ∧ exportDisabled s := by
  refine ⟨fun hd => ?_, h⟩
  rcases hd with ⟨-, -, hp⟩
  rw [h] at hp
  exact lt_irrefl 0 hp

/-- Witness for C3 on the fresh session, whose measured distance is 0. -/
theorem C3_guard_zero_distance_witness :
    ¬ scaleBarDrawnP initialEditorState ∧ exportDisabled initialEditorState :=
  C3_guard_zero_distance initialEditorState rfl

/-- Counterexample to C3 as stated: with `pixelDistance = 50` and
`knownDistance = 0` the ratio is non-finite, yet the preview bar is drawn in
EDIT mode and the export action is enabled. -/
theorem C3_guard_cex :
    pixelsPerUnitJS (⟨50, 0, "µm"⟩ : CalibrationData) = none ∧
    scaleBarDrawnP { initialEditorState with
      mode := AppState.EDIT
      calibration := ⟨50, 0, "µm"⟩ } ∧
    ¬ exportDisabled { initialEditorState with
      mode := AppState.EDIT
      calibration := ⟨50, 0, "µm"⟩ } := by
  refine ⟨by simp [pixelsPerUnitJS], ⟨rfl, rfl, by norm_num⟩, ?_⟩
  show ¬ (50 : ℝ) = 0
  norm_num

/-- ECMAScript rounding of an integer is the identity. -/
theorem jsRound_intCast (n : ℤ) : jsRound (n : ℚ) = n := by
  rw [jsRound, Int.floor_int_add]
  norm_num

/-- ECMAScript rounding is at most half above the argument. -/
theorem jsRound_le (q : ℚ) : (jsRound q : ℚ) ≤ q + 1/2 := by
  rw [jsRound]
  exact_mod_cast Int.floor_le (q + 1/2)

/-- ECMAScript rounding is less than half below the argument. -/
theorem lt_jsRound (q : ℚ) : q - 1/2 < (jsRound q : ℚ) := by
  rw [jsRound]
  have h := Int.lt_floor_add_one (q + 1/2)
  push_cast at h ⊢
  linarith

/-- A single crop-inset edit whose parsed pixel value is non-negative
preserves the crop bounds. -/
theorem updateCropInset_preserves (img : ImageDims) (up : Bool) (ty : InsetType)
    (str : String) (c : CropRect) (hc : CropInv img c)
    (hv : 0 ≤ parseInputValue up str (insetMax img ty)) :
    CropInv img (updateCropInset img up ty str c) := by
  obtain ⟨h1, h2, h3, h4, h5, h6⟩ := hc
  cases ty <;>
    · simp only [updateCropInset, insetMax] at hv ⊢
      unfold CropInv
      dsimp only
      omega

/-- C1 (amended): starting from a crop rectangle satisfying the bounds, any
sequence of crop-inset edits whose parsed pixel values are non-negative
(which includes every non-numeric input, parsed as 0) keeps
`width ≥ 10`, `height ≥ 10`, `x ≥ 0`, `y ≥ 0`, `x+width ≤ imageWidth` and
`y+height ≤ imageHeight`.  A negative numeric value defeats the invariant —
see the counterexample. -/
theorem C1_crop_invariant (img : ImageDims) (edits : List CropEdit) (c : CropRect)
    (hc : CropInv img c)
    (hv : ∀ e ∈ edits, 0 ≤ parseInputValue e.usePercent e.value (insetMax img e.ty)) :
    CropInv img (applyCropEdits img edits c) := by
  induction edits generalizing c with
  | nil => simpa [applyCropEdits] using hc
  | cons e rest ih =>
    simp only [applyCropEdits, List.foldl_cons] at *
    exact ih _
      (updateCropInset_preserves img e.usePercent e.ty e.value c hc
        (hv e (List.mem_cons_self e rest)))
      (fun e' he' => hv e' (List.mem_cons_of_mem e he'))

/-- Witness for C1: three concrete edits (a pixel top inset, a percent
bottom inset, a non-numeric left inset) on a 100 by 100 image keep the
bounds. -/
theorem C1_crop_invariant_witness :
    CropInv ⟨100, 100⟩ (applyCropEdits ⟨100, 100⟩
      [⟨false, .top, "20"⟩, ⟨true, .bottom, "30"⟩, ⟨false, .left, "abc"⟩]
      ⟨0, 0, 100, 100⟩) := by
  apply C1_crop_invariant
  · decide
  · intro e he
    fin_cases he <;>
      · simp +decide [parseInputValue, parseFloatQ, digitsToNat, digitVal,
          jsRound, insetMax] <;> norm_num

/-- Counterexample to C1 as stated: from the full-image crop of a 100 by 100
image, editing the bottom inset to the value -5 in pixel mode yields height
105 and `y + height = 105 > 100`, leaving the image bounds. -/
theorem C1_crop_invariant_cex :
    CropInv ⟨100, 100⟩ ⟨0, 0, 100, 100⟩ ∧
    ¬ CropInv ⟨100, 100⟩
      (updateCropInset ⟨100, 100⟩ false .bottom "-5" ⟨0, 0, 100, 100⟩) := by
  constructor
  · decide
  · rw [show updateCropInset ⟨100, 100⟩ false .bottom "-5" ⟨0, 0, 100, 100⟩ =
        (⟨0, 0, 100, 105⟩ : CropRect) from by
      simp +decide [updateCropInset, parseInputValue, parseFloatQ, digitsToNat,
        digitVal, jsRound, insetMax]
      norm_num]
    decide

/-- After a bottom-inset edit whose parsed value leaves at least 10 pixels
of crop height, the stored bottom inset equals the parsed value. -/
theorem bottom_edit_inset (img : ImageDims) (up : Bool) (str : String) (c : CropRect)
    (hle : parseInputValue up str img.height ≤ img.height - c.y - 10) :
    img.height - ((updateCropInset img up .bottom str c).y +
      (updateCropInset img up .bottom str c).height)
      = parseInputValue up str img.height := by
  simp only [updateCropInset, insetMax]
  omega

/-- C8 (amended): editing the bottom inset and reading the field back is the
identity on the parsed rounded pixel value whenever the edit is not clamped
by the 10-pixel minimum; in percent mode the read-back differs from the
requested percentage by at most 0.1 provided the image is at least 1000
pixels high (rounding to whole pixels alone can move the displayed
percentage by 50/imageHeight).  Clamped edits and short images break the
round-trip — see the counterexample. -/
theorem C8_bottom_roundtrip :
    (∀ (img : ImageDims) (c : CropRect) (str : String),
      parseInputValue false str img.height ≤ img.height - c.y - 10 →
      bottomInsetDisplay img false (updateCropInset img false .bottom str c)
        = (parseInputValue false str img.height : ℚ)) ∧
    (∀ (img : ImageDims) (c : CropRect) (str : String) (v : ℚ),
      parseFloatQ str = some v →
      1000 ≤ img.height →
      parseInputValue true str img.height ≤ img.height - c.y - 10 →
      |bottomInsetDisplay img true (updateCropInset img true .bottom str c) - v|
        ≤ 1/10) := by
  constructor
  · intro img c str hle
    have h1 := bottom_edit_inset img false str c hle
    rw [bottomInsetDisplay, h1, getDisplayValue]
    simp [jsRound_intCast]
  · intro img c str v hparse hbig hle
    have hvq : parseInputValue true str img.height = jsRound (v / 100 * img.height) := by
      rw [parseInputValue, hparse]
      simp
    have h1 := bottom_edit_inset img true str c hle
    rw [bottomInsetDisplay, h1, getDisplayValue, if_pos rfl, toFixed1]
    set val := parseInputValue true str img.height with hvaldef
    set hq : ℚ := (img.height : ℚ) with hqdef
    have hh : (1000 : ℚ) ≤ hq := by rw [hqdef]; exact_mod_cast hbig
    have hpos : (0 : ℚ) < hq := by linarith
    set b : ℚ := (val : ℚ) / hq * 100 with hbdef
    have hv1 : (val : ℚ) ≤ v / 100 * hq + 1/2 := by
      rw [hvq]; exact jsRound_le _
    have hv2 : v / 100 * hq - 1/2 < (val : ℚ) := by
      rw [hvq]; exact lt_jsRound _
    have hd1 : (jsRound (b * 10) : ℚ) ≤ b * 10 + 1/2 := jsRound_le _
    have hd2 : b * 10 - 1/2 < (jsRound (b * 10) : ℚ) := lt_jsRound _
    have hb : b * hq = (val : ℚ) * 100 := by
      rw [hbdef]; field_simp
    have hbv1 : b - v ≤ 1/20 := by nlinarith [hb, hv1, hh, hpos]
    have hbv2 : -(1/20 : ℚ) ≤ b - v := by nlinarith [hb, hv2, hh, hpos]
    rw [abs_le]
    constructor
    · linarith
    · linarith

/-- Witness for C8: on a 100 by 100 image the pixel value 37 reads back
exactly, and on a 1000 by 1000 image the percentage 12.5 reads back within
0.1. -/
theorem C8_bottom_roundtrip_witness :
    bottomInsetDisplay ⟨100, 100⟩ false
        (updateCropInset ⟨100, 100⟩ false .bottom "37" ⟨0, 0, 100, 100⟩) = 37 ∧
    |bottomInsetDisplay ⟨1000, 1000⟩ true
        (updateCropInset ⟨1000, 1000⟩ true .bottom "12.5" ⟨0, 0, 1000, 1000⟩)
      - 25/2| ≤ 1/10 := by
  have hv37 : parseInputValue false "37" (100 : ℤ) = 37 := by
    simp +decide [parseInputValue, parseFloatQ, digitsToNat, digitVal, jsRound] <;>
      norm_num
  have hparse : parseFloatQ "12.5" = some (25/2 : ℚ) := by
    simp +decide [parseFloatQ, digitsToNat, digitVal] <;> norm_num
  have hv125 : parseInputValue true "12.5" (1000 : ℤ) = 125 := by
    simp +decide [parseInputValue, parseFloatQ, digitsToNat, digitVal, jsRound] <;>
      norm_num
  constructor
  · have h := C8_bottom_roundtrip.1 ⟨100, 100⟩ ⟨0, 0, 100, 100⟩ "37"
      (by show parseInputValue false "37" (100 : ℤ) ≤ 100 - 0 - 10
          rw [hv37]; norm_num)
    rw [h]
    norm_num [hv37]
  · exact C8_bottom_roundtrip.2 ⟨1000, 1000⟩ ⟨0, 0, 1000, 1000⟩ "12.5" (25/2)
      hparse (by norm_num)
      (by show parseInputValue true "12.5" (1000 : ℤ) ≤ 1000 - 0 - 10
          rw [hv125]; norm_num)

/-- Counterexample to C8 as stated: from the full crop of a 100 by 100
image, editing the bottom inset to 95 pixels is clamped by the 10-pixel
minimum and reads back as 90, not 95. -/
theorem C8_bottom_roundtrip_cex :
    bottomInsetDisplay ⟨100, 100⟩ false
        (updateCropInset ⟨100, 100⟩ false .bottom "95" ⟨0, 0, 100, 100⟩) = 90 ∧
    (90 : ℚ) ≠ 95 := by
  constructor
  · rw [show updateCropInset ⟨100, 100⟩ false .bottom "95" ⟨0, 0, 100, 100⟩ =
        (⟨0, 0, 100, 10⟩ : CropRect) from by
      simp +decide [updateCropInset, parseInputValue, parseFloatQ, digitsToNat,
        digitVal, jsRound, insetMax] <;> norm_num]
    rw [bottomInsetDisplay, getDisplayValue]
    norm_num [jsRound]
  · norm_num

/-- C4 (amended): when the detected scale text splits into at least two
whitespace-separated tokens and `parseFloat` accepts the first, loading
seeds `knownDistance` with the parsed number, `unit` with the second token
(not the whole remainder), the default bar length with half the number and
the bar unit with the second token; with fewer than two tokens, or an
unparsable first token, nothing is seeded; and a failed analysis call
substitutes `suggestedCropY = 0` with no scale text. -/
theorem C4_scale_text_seeding :
    (∀ (text : String) (s : EditorState) (p0 p1 : String) (rest : List String) (v : ℚ),
      jsSplitWs text = p0 :: p1 :: rest →
      parseFloatQ p0 = some v →
      (seedFromScaleText text s).calibration.knownDistance = (v : ℝ) ∧
      (seedFromScaleText text s).calibration.unit = p1 ∧
      (seedFromScaleText text s).settings.lengthValue = (v : ℝ) / 2 ∧
      (seedFromScaleText text s).settings.lengthUnit = p1 ∧
      (seedFromScaleText text s).crop = s.crop ∧
      (seedFromScaleText text s).calibration.pixels = s.calibration.pixels) ∧
    (∀ (text : String) (s : EditorState),
      (jsSplitWs text).length < 2 → seedFromScaleText text s = s) ∧
    (∀ (text : String) (s : EditorState) (p0 p1 : String) (rest : List String),
      jsSplitWs text = p0 :: p1 :: rest →
      parseFloatQ p0 = none → seedFromScaleText text s = s) ∧
    analyzeSemImage none = ⟨0, none⟩ := by
  refine ⟨?_, ?_, ?_, rfl⟩
  · intro text s p0 p1 rest v hsplit hparse
    simp [seedFromScaleText, hsplit, hparse]
  · intro text s hlen
    rcases hsp : jsSplitWs text with _ | ⟨a, tl⟩
    · simp [seedFromScaleText, hsp]
    · rcases tl with _ | ⟨b, rest⟩
      · simp [seedFromScaleText, hsp]
      · rw [hsp] at hlen
        simp at hlen
        omega
  · intro text s p0 p1 rest hsplit hnone
    simp [seedFromScaleText, hsplit, hnone]

/-- Witness for C4: the text `10 um` seeds `knownDistance = 10`,
`unit = "um"`, bar length 5; the one-token text `abc` and the two-token text
`x y` with unparsable first token seed nothing; a failed call yields
`suggestedCropY = 0`. -/
theorem C4_scale_text_seeding_witness :
    (seedFromScaleText "10 um" initialEditorState).calibration.knownDistance
      = ((10 : ℚ) : ℝ) ∧
    (seedFromScaleText "10 um" initialEditorState).calibration.unit = "um" ∧
    (seedFromScaleText "10 um" initialEditorState).settings.lengthValue
      = ((10 : ℚ) : ℝ) / 2 ∧
    (seedFromScaleText "10 um" initialEditorState).settings.lengthUnit = "um" ∧
    seedFromScaleText "abc" initialEditorState = initialEditorState ∧
    seedFromScaleText "x y" initialEditorState = initialEditorState ∧
    analyzeSemImage none = ⟨0, none⟩ := by
  have hsplit : jsSplitWs "10 um" = ["10", "um"] := by decide
  have hparse : parseFloatQ "10" = some (10 : ℚ) := by
    simp +decide [parseFloatQ, digitsToNat, digitVal] <;> norm_num
  obtain ⟨hsucc, hshort, hbadnum, hfall⟩ := C4_scale_text_seeding
  have h1 := hsucc "10 um" initialEditorState "10" "um" [] 10 hsplit hparse
  exact ⟨h1.1, h1.2.1, h1.2.2.1, h1.2.2.2.1,
    hshort "abc" initialEditorState (by decide),
    hbadnum "x y" initialEditorState "x" "y" [] (by decide) (by decide),
    hfall⟩

/-- Counterexample to C4 as stated: feeding the three-token text `10 n m`
seeds the unit with the second token `n`, not with the remainder `n m`. -/
theorem C4_scale_text_seeding_cex :
    (seedFromScaleText "10 n m" initialEditorState).calibration.unit = "n" ∧
    "n" ≠ "n m" := by
  constructor
  · have hsplit : jsSplitWs "10 n m" = ["10", "n", "m"] := by decide
    have hparse : parseFloatQ "10" = some (10 : ℚ) := by
      simp +decide [parseFloatQ, digitsToNat, digitVal] <;> norm_num
    simp [seedFromScaleText, hsplit, hparse]
  · decide

end SEM
